import Mathlib

/-!
# Verification of the stonkzap sentiment/trading core

A shallow embedding, in Lean 4, of the parts of the repository that the
frozen claims are about:

* `app/nlp/sentiment.py`   (lexicon sentiment scorer)
* `app/nlp/clean.py`       (text normalisation and symbol extraction)
* `app/nlp/bot_filter.py`  (noise filter)
* `app/storage/db.py`      (post upsert and the per-source aggregation)
* `app/orchestration/tasks.py` (window parsing, the aggregation pipeline)
* `app/trading/scanner.py` (divergence scoring and the market scan)
* `app/trading/backtest.py` (trade simulation walk and report)

Modelling conventions, used throughout:

* Python floats are modelled as exact rationals (`ℚ`); every numeric
  literal below (0.9, 1.2, ...) denotes the same decimal value the source
  writes.  No claim in scope depends on binary rounding of IEEE floats.
* Timestamps are abstract integers.  The orchestration code measures the
  window in hours, so a `timedelta` is embedded as its total number of
  hours; the backtest works in days and its dates are plain integers.
* External effects (HTTP collectors, the Postgres connection, yfinance)
  are oracles supplied in an environment record; a call that Python can
  raise an exception from is an `Except String` value.  Deterministic
  in-repo code is embedded as Lean functions.
* Character classes: Python `str.lower`/`str.upper`/`\w`/`\s` are
  unicode-aware; they are embedded through the corresponding Lean `Char`
  predicates (`Char.toLower`, `Char.isAlphanum`, `Char.isWhitespace`),
  which agree on the ASCII texts the tests and claims use.
-/

set_option maxRecDepth 10000

namespace Stonkzap

/-- Truncation toward zero, the semantics of the Python `int()` cast
applied to a float. -/
def pyTrunc (q : ℚ) : ℤ :=
  if q < 0 then -(Int.floor (-q)) else Int.floor q

/-- Count of a character in a list of characters (Python `str.count` for a
single-character needle). -/
def charCount (cs : List Char) (c : Char) : ℕ :=
  cs.countP (fun x => x = c)

/-- Number of non-overlapping occurrences of a pattern in a text,
scanning left to right: the semantics of Python `str.count` for a
multi-character needle.  After a match the scan resumes past its end;
the `skip` counter carries the remaining characters of the match still
to be stepped over (structural recursion in the text). -/
def countSubAux (pat : List Char) : List Char → ℕ → ℕ
  | [], _ => 0
  | _ :: rest, skip + 1 => countSubAux pat rest skip
  | c :: rest, 0 =>
      if pat ≠ [] ∧ pat.isPrefixOf (c :: rest) then
        1 + countSubAux pat rest (pat.length - 1)
      else
        countSubAux pat rest 0

def countSub (cs pat : List Char) : ℕ :=
  countSubAux pat cs 0

/-- Substring test (Python `needle in haystack` on strings). -/
def containsSub (haystack pat : List Char) : Bool :=
  decide (pat <:+: haystack)

/-! ## `app/nlp/sentiment.py` -/

/-- Structure `SentimentScore` from `app/services/types.py`. -/
structure SentimentScore where
  polarity : ℚ
  subjectivity : ℚ
  sarcasm_prob : ℚ
  confidence : ℚ
  model : String
deriving DecidableEq, Repr

/-- The `POSITIVE_WORDS` lexicon. -/
def POSITIVE_WORDS : List (String × ℚ) :=
  [("bullish", 2.0), ("moon", 2.0), ("rocket", 2.0), ("surge", 2.0),
   ("rally", 2.0), ("breakout", 2.0), ("explosive", 2.0), ("soaring", 2.0),
   ("buy", 1.5), ("long", 1.5), ("growth", 1.5), ("profit", 1.5),
   ("gain", 1.5), ("up", 1.5), ("strong", 1.5), ("upgrade", 1.5),
   ("outperform", 1.5),
   ("good", 1.0), ("positive", 1.0), ("optimistic", 1.0), ("uptrend", 1.0),
   ("recover", 1.0), ("beat", 1.0), ("exceed", 1.0)]

/-- The `NEGATIVE_WORDS` lexicon. -/
def NEGATIVE_WORDS : List (String × ℚ) :=
  [("bearish", -2.0), ("crash", -2.0), ("collapse", -2.0), ("plunge", -2.0),
   ("dump", -2.0), ("tank", -2.0), ("disaster", -2.0), ("bankruptcy", -2.0),
   ("sell", -1.5), ("short", -1.5), ("loss", -1.5), ("down", -1.5),
   ("weak", -1.5), ("decline", -1.5), ("fall", -1.5), ("drop", -1.5),
   ("downgrade", -1.5),
   ("bad", -1.0), ("negative", -1.0), ("pessimistic", -1.0),
   ("downtrend", -1.0), ("miss", -1.0), ("underperform", -1.0),
   ("concern", -1.0), ("worry", -1.0)]

def INTENSIFIERS : List String :=
  ["very", "extremely", "really", "absolutely", "totally", "definitely"]

def DIMINISHERS : List String :=
  ["somewhat", "slightly", "kind of", "sort of", "maybe", "perhaps"]

def NEGATIONS : List String :=
  ["not", "no", "never", "neither", "nobody", "nothing", "nowhere", "none"]

def SARCASM_INDICATORS : List String :=
  ["yeah right", "sure thing", "totally not", "definitely not",
   "🙄", "😏", "😒", "obviously", "clearly"]

def EMOJI_SENTIMENT : List (Char × ℚ) :=
  [('🚀', 2.0), ('📈', 1.5), ('💎', 1.5), ('🙌', 1.5), ('💰', 1.5),
   ('📉', -1.5), ('💀', -2.0), ('😭', -1.5), ('😱', -1.5), ('🔥', 1.0)]

/-- A word character for the `\b\w+\b` tokenizer of `_extract_features`:
alphanumeric or underscore. -/
def isWordChar (c : Char) : Bool :=
  c.isAlphanum || c = '_'

/-- Tokenisation by `re.findall(r..b..w+..b.., text)`: the maximal runs of
word characters, in order. -/
def tokenizeAux : List Char → List Char → List String
  | [], acc => if acc.isEmpty then [] else [String.mk acc.reverse]
  | c :: cs, acc =>
      if isWordChar c then tokenizeAux cs (c :: acc)
      else if acc.isEmpty then tokenizeAux cs []
      else String.mk acc.reverse :: tokenizeAux cs []

def tokenize (cs : List Char) : List String :=
  tokenizeAux cs []

/-- Lowercasing of a character list (Python `str.lower`). -/
def lowerChars (cs : List Char) : List Char :=
  cs.map Char.toLower

/-- The intensifier/diminisher/negation adjustment applied to the score of
a matched lexicon word, using the preceding token when there is one. -/
def adjustScore (prev : Option String) (sc : ℚ) : ℚ :=
  match prev with
  | Option.none => sc
  | some p =>
      if p ∈ INTENSIFIERS then sc * 1.5
      else if p ∈ DIMINISHERS then sc * 0.5
      else if p ∈ NEGATIONS then sc * (-1)
      else sc

/-- The word loop of `_extract_features`: accumulated sentiment score and
count of matched lexicon words.  The first component of the state is the
previous token (`words[i-1]`, absent at index 0). -/
def sentiWordLoop : Option String → List String → ℚ × ℕ
  | _, [] => (0, 0)
  | prev, w :: ws =>
      let rest := sentiWordLoop (some w) ws
      match POSITIVE_WORDS.lookup w with
      | some sc => (adjustScore prev sc + rest.1, 1 + rest.2)
      | Option.none =>
          match NEGATIVE_WORDS.lookup w with
          | some sc => (adjustScore prev sc + rest.1, 1 + rest.2)
          | Option.none => rest

/-- The feature record built by `_extract_features`. -/
structure Features where
  sentiment_score : ℚ
  word_count : ℕ
  emoji_score : ℚ
  exclamation_count : ℕ
  question_count : ℕ
  caps_ratio : ℚ
  has_first_person : Bool
  has_opinion_words : Bool
  total_words : ℕ
deriving DecidableEq, Repr

/-- Function `_extract_features` over the character list of the text. -/
def extractFeatures (text : List Char) : Features :=
  let textLower := lowerChars text
  let words := tokenize textLower
  let sw := sentiWordLoop Option.none words
  { sentiment_score := sw.1
    word_count := sw.2
    emoji_score := (text.map (fun c => ((EMOJI_SENTIMENT.lookup c).getD 0))).sum
    exclamation_count := charCount text '!'
    question_count := charCount text '?'
    caps_ratio := (text.countP Char.isUpper : ℚ) / (max text.length 1 : ℕ)
    has_first_person := ["i", "my", "me", "mine"].any (fun w => words.contains w)
    has_opinion_words :=
      ["think", "believe", "feel", "opinion"].any (fun w => words.contains w)
    total_words := words.length }

/-- Function `_detect_sarcasm`. -/
def detectSarcasm (text : List Char) (f : Features) : ℚ :=
  let textLower := lowerChars text
  let indicatorScore :=
    (SARCASM_INDICATORS.map
      (fun ind => if containsSub textLower ind.data then (0.3 : ℚ) else 0)).sum
  let s1 := indicatorScore +
    (if f.caps_ratio > 0.5 ∧ f.sentiment_score > 0 then (0.2 : ℚ) else 0)
  let s2 := s1 + (if f.exclamation_count > 3 then (0.1 : ℚ) else 0)
  let s3 := s2 + (if countSub text ['?', '?'] > 0 then (0.2 : ℚ) else 0)
  min 1.0 s3

/-- Leading and trailing whitespace removal (Python `str.strip`). -/
def pyStrip (cs : List Char) : List Char :=
  ((cs.dropWhile Char.isWhitespace).reverse.dropWhile Char.isWhitespace).reverse

/-- The polarity computation of `score_text`: lexicon score normalised by
matched-word count plus the weighted emoji score, clamped into
`[-1, 1]`; zero when no lexicon word matched. -/
def polarityOf (f : Features) : ℚ :=
  if f.word_count > 0 then
    max (-1.0)
      (min 1.0 (f.sentiment_score / (f.word_count : ℚ) + f.emoji_score * 0.3))
  else 0.0

/-- The subjectivity computation of `score_text`: the four additive
indicator contributions, capped at 1. -/
def subjectivityOf (f : Features) : ℚ :=
  min 1.0
    (0.0 + (if f.has_first_person then (0.3 : ℚ) else 0)
      + (if f.has_opinion_words then (0.3 : ℚ) else 0)
      + (if f.exclamation_count > 0 then
          min 0.2 ((f.exclamation_count : ℚ) * 0.1) else 0)
      + (if f.caps_ratio > 0.3 then (0.2 : ℚ) else 0))

/-- The confidence computation of `score_text`: the 0.3 base plus the
word-count and emoji boosts, halved on detected sarcasm, capped at 1. -/
def confidenceOf (f : Features) (sarcasm : ℚ) : ℚ :=
  let conf := (0.3 : ℚ) + (if f.word_count ≥ 3 then (0.2 : ℚ) else 0)
    + (if f.word_count ≥ 5 then (0.2 : ℚ) else 0)
    + (if f.emoji_score ≠ 0 then (0.1 : ℚ) else 0)
  min 1.0 (if sarcasm > 0.5 then conf * 0.5 else conf)

/-- Function `score_text` from `app/nlp/sentiment.py`. -/
def scoreText (text : String) : SentimentScore :=
  if text.data.isEmpty ∨ (pyStrip text.data).isEmpty then
    { polarity := 0.0, subjectivity := 0.0, sarcasm_prob := 0.0,
      confidence := 0.0, model := "enhanced_heuristic_v1" }
  else
    let f := extractFeatures text.data
    let sarcasm := detectSarcasm text.data f
    { polarity := polarityOf f, subjectivity := subjectivityOf f,
      sarcasm_prob := sarcasm, confidence := confidenceOf f sarcasm,
      model := "enhanced_heuristic_v1" }

/-! ## `app/services/types.py` and `app/nlp/clean.py`, `app/nlp/bot_filter.py` -/

/-- Structure `SocialPost` from `app/services/types.py`.  The optional engagement
and threading columns (author handle, urls, lang, reply/repost ids, the
four counters, permalink) are not consulted by any code a claim is about
and are not replaced by the duplicate-key upsert either; they are omitted
from the embedding. -/
structure SocialPost where
  source : String
  platform_id : String
  author_id : String
  created_at : ℤ
  text : String
  symbols : List String
deriving DecidableEq, Repr

/-- Structure `ResolvedInstrument` from `app/services/types.py` (the optional
cik/isin/figi identifiers are carried nowhere the claims look). -/
structure ResolvedInstrument where
  symbol : String
  company_name : String
deriving DecidableEq, Repr

/-- Length of the leading match of `https?://\S+` at the head of the
character list, when there is one: the literal scheme followed by at
least one non-whitespace character, greedily extended. -/
def urlMatchLen (cs : List Char) : Option ℕ :=
  let tryScheme := fun (scheme : List Char) =>
    if scheme.isPrefixOf cs then
      let rest := cs.drop scheme.length
      let tail := rest.takeWhile (fun c => ¬ c.isWhitespace)
      if tail.isEmpty then Option.none else some (scheme.length + tail.length)
    else Option.none
  match tryScheme "https://".data with
  | some n => some n
  | Option.none => tryScheme "http://".data

/-- Embedding of `re.sub(r.https?://..S+., .., t)`: delete every URL match, scanning
left to right without overlap.  The `skip` counter steps over the
remaining characters of a deleted match (a match is at least 8 long, so
`n - 1` of them remain after the head). -/
def removeUrlsAux : List Char → ℕ → List Char
  | [], _ => []
  | _ :: cs, skip + 1 => removeUrlsAux cs skip
  | c :: cs, 0 =>
      match urlMatchLen (c :: cs) with
      | some n => removeUrlsAux cs (n - 1)
      | Option.none => c :: removeUrlsAux cs 0

def removeUrls (cs : List Char) : List Char :=
  removeUrlsAux cs 0

/-- Embedding of `re.sub(r..s+., " ", t)`: each maximal whitespace run becomes a single
space.  The flag records whether the previous character belonged to a
whitespace run already replaced. -/
def collapseWsAux : List Char → Bool → List Char
  | [], _ => []
  | c :: cs, prevWs =>
      if c.isWhitespace then
        if prevWs then collapseWsAux cs true
        else ' ' :: collapseWsAux cs true
      else c :: collapseWsAux cs false

def collapseWs (cs : List Char) : List Char :=
  collapseWsAux cs false

/-- Function `normalize_post` from `app/nlp/clean.py`. -/
def normalizePost (t : String) : String :=
  String.mk (pyStrip (collapseWs (removeUrls t.data)))

/-- ASCII uppercase letter, the `[A-Z]` class of the cashtag regex. -/
def isUpperAZ (c : Char) : Bool :=
  'A' ≤ c ∧ c ≤ 'Z'

/-- The cashtag scan `re.findall(r...([A-Z]{1,5})(?![A-Z])., t)`: a dollar
sign whose following maximal uppercase run has length 1 to 5 yields that
run (a longer run admits no match because of the lookahead); the scan
resumes after a matched run, stepped over via the `skip` counter. -/
def cashtagsAux : List Char → ℕ → List String
  | [], _ => []
  | _ :: cs, skip + 1 => cashtagsAux cs skip
  | c :: cs, 0 =>
      if c = '$' then
        let run := cs.takeWhile isUpperAZ
        if 1 ≤ run.length ∧ run.length ≤ 5 then
          String.mk run :: cashtagsAux cs run.length
        else cashtagsAux cs 0
      else cashtagsAux cs 0

def cashtags (cs : List Char) : List String :=
  cashtagsAux cs 0

/-- Uppercasing (Python `str.upper`). -/
def upperChars (cs : List Char) : List Char :=
  cs.map Char.toUpper

/-- Function `extract_symbols` from `app/nlp/clean.py`.  The Python function
returns `list(tickers)` for a `set` whose iteration order is unspecified;
the embedding returns the deduplicated list in first-occurrence order
(every consumer only tests membership, so the order is unobservable). -/
def extractSymbols (t : String) (inst : ResolvedInstrument) : List String :=
  let tickers := (cashtags t.data).dedup
  let tickers :=
    if containsSub (upperChars t.data) inst.symbol.data ∨
        inst.symbol ∈ tickers then
      (tickers ++ [inst.symbol]).dedup
    else tickers
  let tickers :=
    if inst.company_name ≠ "" ∧
        containsSub (upperChars t.data) (upperChars inst.company_name.data) then
      (tickers ++ [inst.symbol]).dedup
    else tickers
  tickers

/-- Function `is_probable_bot` from `app/nlp/bot_filter.py`. -/
def isProbableBot (post : SocialPost) : Bool :=
  if post.text.length < 20 ∧ post.symbols.length > 0 then true
  else if charCount post.text.data '$' > 5 then true
  else false

/-! ## `app/storage/db.py` -/

/-- A row of the `social_posts` table, as touched by `DB.upsert_post`.
The table DDL (written out as `schemas.sql` by `src/bootstrap.py`)
declares `id BIGSERIAL PRIMARY KEY`, the post columns, `ingested_at
TIMESTAMPTZ DEFAULT NOW()` and `UNIQUE (source, platform_id)` — the
constraint the `ON CONFLICT` clause of `DB.upsert_post` names — so the
table keeps at most one row per `(source, platform_id)` pair, and a
fresh insert (whose column list omits `ingested_at`) takes `ingested_at
= NOW()` from the column default.  The columns omitted here (engagement
counters and the like, see `SocialPost`) are inserted verbatim on first
insert and, like the content columns kept here, are never touched by the
`DO UPDATE`. -/
structure PostRow where
  id : ℕ
  source : String
  platform_id : String
  author_id : String
  created_at : ℤ
  text : String
  ingested_at : ℤ
deriving DecidableEq, Repr

/-- Method `DB.upsert_post`: `INSERT ... ON CONFLICT (source, platform_id) DO
UPDATE SET ingested_at = NOW() RETURNING id`.  Returns the new table and
the id of the inserted or conflicting row; `now` stands for `NOW()`. -/
def upsertPost (table : List PostRow) (now : ℤ) (p : SocialPost) :
    List PostRow × ℕ :=
  match table.find? (fun r =>
      r.source = p.source ∧ r.platform_id = p.platform_id) with
  | some r =>
      (table.map (fun row =>
        if row.source = p.source ∧ row.platform_id = p.platform_id then
          { row with ingested_at := now }
        else row), r.id)
  | Option.none =>
      (table ++ [{ id := table.length, source := p.source,
                   platform_id := p.platform_id, author_id := p.author_id,
                   created_at := p.created_at, text := p.text,
                   ingested_at := now }], table.length)

/-- A row of the join `social_posts JOIN sentiment ON post_pk = id`
consumed by `DB.aggregate`: the post columns the query reads plus the
polarity of its (unique, upserted) sentiment row. -/
structure ScoredPost where
  source : String
  symbols : List String
  created_at : ℤ
  polarity : ℚ
deriving DecidableEq, Repr

/-- The rows selected by the `WHERE` clause of `DB.aggregate`:
`symbol = ANY(p.symbols) AND p.created_at >= since`. -/
def matchingRows (rows : List ScoredPost) (symbol : String) (since : ℤ) :
    List ScoredPost :=
  rows.filter (fun r => symbol ∈ r.symbols ∧ since ≤ r.created_at)

/-- The distinct sources of the matching rows, the groups of the
`GROUP BY p.source` (SQL leaves the group order unspecified; the sums
taken over the groups below do not depend on it). -/
def matchingSources (rows : List ScoredPost) (symbol : String) (since : ℤ) :
    List String :=
  ((matchingRows rows symbol since).map (fun r => r.source)).dedup

/-- Per-source row count of `DB.aggregate` (the `COUNT(*)` of a group). -/
def sourceCount (rows : List ScoredPost) (symbol : String) (since : ℤ)
    (s : String) : ℕ :=
  ((matchingRows rows symbol since).filter (fun r => r.source = s)).length

/-- Per-source mean polarity of `DB.aggregate` (the `AVG(s.polarity)` of
a group). -/
def sourceAvgPolarity (rows : List ScoredPost) (symbol : String) (since : ℤ)
    (s : String) : ℚ :=
  let g := (matchingRows rows symbol since).filter (fun r => r.source = s)
  (g.map (fun r => r.polarity)).sum / (g.length : ℚ)

/-- The value `DB.aggregate` returns. -/
structure AggOut where
  symbol : String
  window_since : ℤ
  count : ℕ
  weighted_sentiment : ℚ
  sources : List (String × ℕ)
deriving DecidableEq, Repr

/-- Method `DB.aggregate` from `app/storage/db.py`: per-source counts and mean
polarities over the selected rows, then
`total_polarity / total_count` with the `r[1] * r[4] if r[1] else 0`
guard of the source (a zero or missing mean contributes zero). -/
def dbAggregate (rows : List ScoredPost) (symbol : String) (since : ℤ) :
    AggOut :=
  let srcs := matchingSources rows symbol since
  if srcs.isEmpty then
    { symbol := symbol, window_since := since, count := 0,
      weighted_sentiment := 0.0, sources := [] }
  else
    let totalCount := (srcs.map (fun s => sourceCount rows symbol since s)).sum
    let totalPolarity := (srcs.map (fun s =>
      let avg := sourceAvgPolarity rows symbol since s
      if avg ≠ 0 then avg * (sourceCount rows symbol since s : ℚ) else 0)).sum
    { symbol := symbol, window_since := since, count := totalCount,
      weighted_sentiment :=
        if totalCount > 0 then totalPolarity / (totalCount : ℚ) else 0.0,
      sources := srcs.map (fun s => (s, sourceCount rows symbol since s)) }

/-- The aggregation formula in the words of the spec: `weightedSentiment
= Σ(avgPolarity_s × count_s) / Σ count_s` across sources, the
count-weighted mean of the per-source mean polarities.  Stated over the
same persisted rows so that it can be compared with `dbAggregate`. -/
def specWeightedSentiment (rows : List ScoredPost) (symbol : String)
    (since : ℤ) : ℚ :=
  let srcs := matchingSources rows symbol since
  (srcs.map (fun s =>
      sourceAvgPolarity rows symbol since s *
        (sourceCount rows symbol since s : ℚ))).sum /
    ((srcs.map (fun s => (sourceCount rows symbol since s : ℚ))).sum)

/-! ## `app/orchestration/tasks.py` -/

/-- Validity of a digit group for the Python `int(str)` cast: digits
with single underscores strictly between digits.  The flag records
whether the previous character was a digit (so an underscore may follow).
ASCII digits; the unicode digit classes Python additionally accepts do
not occur in any window string of the spec or tests. -/
def digitRun : List Char → Bool → Bool
  | [], prevDigit => prevDigit
  | c :: cs, prevDigit =>
      if c.isDigit then digitRun cs true
      else if c = '_' then prevDigit && digitRun cs false
      else false

/-- Numeric value of a digit group, ignoring the underscores. -/
def digitsToNat (cs : List Char) : ℕ :=
  (cs.filter Char.isDigit).foldl (fun acc c => 10 * acc + (c.toNat - 48)) 0

/-- The Python `int(str)` cast: optional surrounding whitespace, optional
sign, then a valid digit group; anything else raises `ValueError`
(embedded as `none`). -/
def pyIntOfStr (s : String) : Option ℤ :=
  let cs := pyStrip s.data
  let signAndDigits : ℤ × List Char :=
    match cs with
    | '+' :: rest => (1, rest)
    | '-' :: rest => (-1, rest)
    | _ => (1, cs)
  if digitRun signAndDigits.2 false then
    some (signAndDigits.1 * (digitsToNat signAndDigits.2 : ℤ))
  else Option.none

/-- Function `_parse_window` from `app/orchestration/tasks.py`.  A `timedelta` is
embedded as its total number of hours: `timedelta(hours=n)` is `n`,
`timedelta(days=n)` is `24 * n`.  Python evaluates `int(window[:-1])`
first, so a malformed count (including the empty slice of a too-short
string) lands in the `except (ValueError, IndexError)` arm no matter what
the last character is; an unknown unit falls into the `else` arm that
returns `timedelta(hours=24)`. -/
def parseWindow (window : String) : Except String ℤ :=
  match pyIntOfStr (String.mk window.data.dropLast) with
  | Option.none => Except.error ("Invalid window format: " ++ window)
  | some n =>
      match window.data.getLast? with
      | Option.none => Except.error ("Invalid window format: " ++ window)
      | some u =>
          let unit := u.toLower
          if unit = 'h' then Except.ok n
          else if unit = 'd' then Except.ok (24 * n)
          else Except.ok 24

/-- A Python value, as far as the returned result dictionaries need:
numbers, strings and string-keyed dictionaries. -/
inductive PyVal where
  | num (q : ℚ)
  | str (s : String)
  | dict (entries : List (String × PyVal))
deriving Repr

/-- Key update on a dictionary entry list: Python `d[k] = v` (replace in
place when the key exists, append otherwise). -/
def setEntries : List (String × PyVal) → String → PyVal → List (String × PyVal)
  | [], k, v => [(k, v)]
  | (k0, v0) :: rest, k, v =>
      if k0 = k then (k0, v) :: rest else (k0, v0) :: setEntries rest k v

/-- Key assignment `d[k] = v` on a dictionary value. -/
def PyVal.set : PyVal → String → PyVal → PyVal
  | PyVal.dict es, k, v => PyVal.dict (setEntries es k v)
  | other, _, _ => other

/-- Lookup `d.get(k)` on a dictionary value (`none` for a missing key, as for
the Python `None` default). -/
def PyVal.get : PyVal → String → Option PyVal
  | PyVal.dict es, k => es.lookup k
  | _, _ => Option.none

/-- Lookup `d.get(k, default)` with a default. -/
def PyVal.getD (v : PyVal) (k : String) (d : PyVal) : PyVal :=
  (v.get k).getD d

/-- Python truthiness of the embedded values (`if d.get("error"):` treats
a missing key, an empty string, zero and an empty dict as false). -/
def pyTruthy : Option PyVal → Bool
  | Option.none => false
  | some (PyVal.num q) => q ≠ 0
  | some (PyVal.str s) => s ≠ ""
  | some (PyVal.dict es) => ¬ es.isEmpty

/-- The oracles `aggregate_social` calls: the current time, the resolver,
the four source collectors (each may raise), the Postgres handles of the
`DB` object (opening the connection, the three per-post upserts — the
embedding vector itself is irrelevant, only whether computing and storing
it succeeds — and the rows the final aggregation query reads). -/
structure OrchEnv where
  now : ℤ
  resolve : String → Except String ResolvedInstrument
  collect_x : ResolvedInstrument → ℤ → Except String (List SocialPost)
  collect_reddit : ResolvedInstrument → ℤ → Except String (List SocialPost)
  collect_stocktwits : ResolvedInstrument → ℤ → Except String (List SocialPost)
  collect_discord : ResolvedInstrument → ℤ → Except String (List SocialPost)
  db_connect : Except String Unit
  db_upsert_post : SocialPost → Except String ℕ
  db_upsert_sentiment : ℕ → SentimentScore → Except String Unit
  db_store_embedding : ℕ → Except String Unit
  db_rows : Except String (List ScoredPost)

/-- One guarded collector call of `aggregate_social`: a raising collector
is caught and recorded as zero posts. -/
def collectOne (r : Except String (List SocialPost)) : List SocialPost × ℕ :=
  match r with
  | Except.ok l => (l, l.length)
  | Except.error _ => ([], 0)

/-- The body of the cleaning loop of `aggregate_social` for one post:
normalise the text, extract the symbols (`list(set(...))`), then drop the
post when no symbol was found or the bot filter fires. -/
def cleanPost (inst : ResolvedInstrument) (p : SocialPost) : Option SocialPost :=
  let t := normalizePost p.text
  let syms := (extractSymbols t inst).dedup
  let p2 := { p with text := t, symbols := syms }
  if syms.isEmpty then Option.none
  else if isProbableBot p2 then Option.none
  else some p2

/-- The body of the persistence loop of `aggregate_social` for one post:
upsert the post, score and upsert the sentiment, store the embedding;
any failure is caught and the post is skipped (it does not count as
processed). -/
def processPostOk (env : OrchEnv) (p : SocialPost) : Bool :=
  match env.db_upsert_post p with
  | Except.error _ => false
  | Except.ok pk =>
      match env.db_upsert_sentiment pk (scoreText p.text) with
      | Except.error _ => false
      | Except.ok _ =>
          match env.db_store_embedding pk with
          | Except.error _ => false
          | Except.ok _ => true

/-- Value of `inst.model_dump()` as a dictionary. -/
def instPy (inst : ResolvedInstrument) : PyVal :=
  PyVal.dict [("symbol", PyVal.str inst.symbol),
              ("company_name", PyVal.str inst.company_name)]

/-- The `sources_status` dictionary. -/
def sourcesPy (xn rn sn dn : ℕ) : PyVal :=
  PyVal.dict [("x", PyVal.num xn), ("reddit", PyVal.num rn),
              ("stocktwits", PyVal.num sn), ("discord", PyVal.num dn)]

/-- The dictionary `DB.aggregate` returns (`window_since`, an isoformat
string in Python, is embedded as the numeric timestamp). -/
def aggToPy (a : AggOut) : PyVal :=
  PyVal.dict [("symbol", PyVal.str a.symbol),
              ("window_since", PyVal.num a.window_since),
              ("count", PyVal.num a.count),
              ("weighted_sentiment", PyVal.num a.weighted_sentiment),
              ("sources",
                PyVal.dict (a.sources.map (fun p => (p.1, PyVal.num p.2))))]

/-- Function `aggregate_social` from `app/orchestration/tasks.py`.  `Except.error`
is a raised exception: the two `raise ValueError` arms (resolution
failure, malformed window), a raising `DB()` constructor, and the
re-`raise` when the final aggregation query fails.  Collector failures
and per-post failures are caught inside and never surface. -/
def aggregateSocial (env : OrchEnv) (symbol window : String) :
    Except String PyVal :=
  match env.resolve symbol with
  | Except.error _ => Except.error ("Could not resolve symbol: " ++ symbol)
  | Except.ok inst =>
  match parseWindow window with
  | Except.error _ => Except.error ("Invalid time window: " ++ window)
  | Except.ok delta =>
  let since := env.now - delta
  let cx := collectOne (env.collect_x inst since)
  let cr := collectOne (env.collect_reddit inst since)
  let cs := collectOne (env.collect_stocktwits inst since)
  let cd := collectOne (env.collect_discord inst since)
  let posts := cx.1 ++ cr.1 ++ cs.1 ++ cd.1
  let sources := sourcesPy cx.2 cr.2 cs.2 cd.2
  if posts.isEmpty then
    Except.ok (PyVal.dict
      [("symbol", PyVal.str symbol), ("posts_found", PyVal.num 0),
       ("posts_processed", PyVal.num 0), ("sources", sources),
       ("resolved_instrument", instPy inst),
       ("error", PyVal.str "No posts found for this symbol")])
  else
  let cleanPosts := posts.filterMap (cleanPost inst)
  if cleanPosts.isEmpty then
    Except.ok (PyVal.dict
      [("symbol", PyVal.str symbol),
       ("posts_found", PyVal.num posts.length),
       ("posts_processed", PyVal.num 0), ("sources", sources),
       ("resolved_instrument", instPy inst),
       ("error", PyVal.str "No valid posts after filtering")])
  else
  match env.db_connect with
  | Except.error e => Except.error e
  | Except.ok _ =>
  let processedCount := cleanPosts.countP (fun p => processPostOk env p)
  match env.db_rows with
  | Except.error e => Except.error e
  | Except.ok rows =>
      let result := aggToPy (dbAggregate rows inst.symbol since)
      let result := result.set "resolved_instrument" (instPy inst)
      let result := result.set "posts_found" (PyVal.num posts.length)
      let result := result.set "posts_processed" (PyVal.num processedCount)
      let result := result.set "sources" sources
      Except.ok result

/-- Whether an `Except` value is a success. -/
def exceptOkB {α β : Type} : Except α β → Bool
  | Except.ok _ => true
  | Except.error _ => false

/-! ## `app/trading/scanner.py` -/

/-- A raised Python exception of the scanner. -/
inductive PyErr where
  | attributeError (attr : String)
deriving DecidableEq, Repr

/-- Structure `PriceData` from `app/trading/scanner.py` (pydantic model): note the
field names `price_change_pct_7d` / `price_change_pct_30d`. -/
structure PriceData where
  symbol : String
  current_price : ℚ
  price_change_pct_7d : ℚ
  price_change_pct_30d : ℚ
  volume_7d_avg : ℚ
  volume_30d_avg : ℚ
  is_up_trend : Bool
deriving DecidableEq, Repr

/-- Attribute access on a `PriceData` instance, for the numeric
attributes: a pydantic model raises `AttributeError` for a name that is
not a declared field.  (`symbol` and `is_up_trend` are not numeric and
are read nowhere in `calculate_divergence_score`.) -/
def priceDataAttr (pd : PriceData) (attr : String) : Except PyErr ℚ :=
  if attr = "current_price" then Except.ok pd.current_price
  else if attr = "price_change_pct_7d" then Except.ok pd.price_change_pct_7d
  else if attr = "price_change_pct_30d" then Except.ok pd.price_change_pct_30d
  else if attr = "volume_7d_avg" then Except.ok pd.volume_7d_avg
  else if attr = "volume_30d_avg" then Except.ok pd.volume_30d_avg
  else Except.error (PyErr.attributeError attr)

/-- Structure `OpportunityScore` from `app/trading/scanner.py`.  The
`divergence_reason` field, an f-string formatting floats for display and
read by no claim, is not embedded. -/
structure OpportunityScore where
  symbol : String
  company_name : String
  conviction_score : ℚ
  sentiment_polarity : ℚ
  sentiment_confidence : ℚ
  price_change_7d : ℚ
  price_change_30d : ℚ
  entry_price : ℚ
  stop_loss : ℚ
  target_1 : ℚ
  target_2 : ℚ
  target_3 : ℚ
  position_size_dollars : ℤ
  risk_reward_ratio : ℚ
  signal_type : String
deriving DecidableEq, Repr

/-- Lines 197-251 of `calculate_divergence_score`: the confidence boost
and 3.5 cut-off, the position sizing, targets, risk/reward and the
(`try`-guarded) company-name resolution, ending in the constructed
`OpportunityScore`.  `resolveName` is the resolver oracle of the
`resolve(symbol).company_name` call; its `none` is the except-arm that
falls back to the bare symbol. -/
def finishOpportunity (resolveName : String → Option String) (symbol : String)
    (pol conf base : ℚ) (signalType : String) (pd : PriceData)
    (maxLoss : ℚ) : Option OpportunityScore :=
  let conviction := min 10.0 (base + conf * 2)
  if conviction < 3.5 then Option.none
  else
    let entry := pd.current_price
    let stopLoss := entry * 0.9
    let riskPerShare := entry - stopLoss
    let positionSize : ℤ :=
      if riskPerShare > 0 then pyTrunc (maxLoss / riskPerShare) else 0
    if positionSize ≤ 0 then Option.none
    else
      let positionSizeDollars := pyTrunc ((positionSize : ℚ) * entry)
      let target1 := entry * 1.20
      let target2 := entry * 1.50
      let target3 := entry * 2.00
      let expectedReward := (target1 * 0.5 + target2 * 0.5) - entry
      let expectedRisk := entry - stopLoss
      let riskReward :=
        if expectedRisk > 0 then expectedReward / expectedRisk else 0
      some
        { symbol := symbol,
          company_name := (resolveName symbol).getD symbol,
          conviction_score := conviction,
          sentiment_polarity := pol,
          sentiment_confidence := conf,
          price_change_7d := pd.price_change_pct_7d,
          price_change_30d := pd.price_change_pct_30d,
          entry_price := entry,
          stop_loss := stopLoss,
          target_1 := target1,
          target_2 := target2,
          target_3 := target3,
          position_size_dollars := positionSizeDollars,
          risk_reward_ratio := riskReward,
          signal_type := signalType }

/-- Function `calculate_divergence_score` from `app/trading/scanner.py`.  The
pattern chain reads `price_data.price_change_30d` (and, in the later
branches, `price_data.price_change_7d`) — attribute names `PriceData`
does not declare; the reads go through `priceDataAttr` and the first one
is evaluated before anything else of the `if` chain. -/
def calculateDivergenceScore (resolveName : String → Option String)
    (symbol : String) (pol conf : ℚ) (pd : PriceData) (maxLoss : ℚ) :
    Except PyErr (Option OpportunityScore) := do
  let pc30 ← priceDataAttr pd "price_change_30d"
  if pc30 < -15 ∧ pol > 0.6 then
    pure (finishOpportunity resolveName symbol pol conf 6 "reversal" pd maxLoss)
  else do
    let pc7 ← priceDataAttr pd "price_change_7d"
    if pc7 > 15 ∧ pol > 0.65 then
      pure (finishOpportunity resolveName symbol pol conf 5 "momentum" pd maxLoss)
    else if pol > 0.7 ∧ (-10 < pc7 ∧ pc7 < 10) then
      pure (finishOpportunity resolveName symbol pol conf 4
        "emerging_catalyst" pd maxLoss)
    else
      pure Option.none

/-- The oracles of `scan_market`: the orchestration environment behind
`aggregate_social`, the yfinance-backed `get_price_data` (its `None` is
both a failed fetch and empty history), and the resolver used for the
company name. -/
structure ScanEnv where
  orch : OrchEnv
  price : String → Option PriceData
  resolveName : String → Option String

/-- Stable insertion into a list sorted by descending conviction: the
element goes after every earlier element of greater or equal score, as
Python `list.sort(key=..., reverse=True)` (a stable sort) arranges it. -/
def insertByConviction (x : OpportunityScore) :
    List OpportunityScore → List OpportunityScore
  | [] => [x]
  | y :: ys =>
      if y.conviction_score < x.conviction_score then x :: y :: ys
      else y :: insertByConviction x ys

/-- Descending stable sort by conviction score. -/
def sortByConviction : List OpportunityScore → List OpportunityScore
  | [] => []
  | x :: xs => insertByConviction x (sortByConviction xs)

/-- Numeric reading of an embedded Python value.  Every value compared
numerically by `scan_market` (`posts_processed`, `avg_polarity`,
`confidence`) is a number on every path of `aggregate_social`, so the
other constructors are unreachable here. -/
def pyNumD : PyVal → ℚ
  | PyVal.num q => q
  | _ => 0

/-- The per-symbol body of the scan loop of `scan_market`: any exception
(from `aggregate_social` or from `calculate_divergence_score`) is caught
and the symbol skipped; a result with a truthy `error` or fewer than 5
processed posts is skipped; a missing price is skipped; the sentiment
block is read from the key `"sentiment"` with `{}` as the default, so
`avg_polarity` defaults to 0 and `confidence` to 0.3. -/
def scanSymbol (env : ScanEnv) (minConviction : ℚ) (symbol : String) :
    Option OpportunityScore :=
  match aggregateSocial env.orch symbol "7d" with
  | Except.error _ => Option.none
  | Except.ok result =>
      if pyTruthy (result.get "error") ∨
          pyNumD (result.getD "posts_processed" (PyVal.num 0)) < 5 then
        Option.none
      else
        let sentimentData := result.getD "sentiment" (PyVal.dict [])
        let pol := pyNumD (sentimentData.getD "avg_polarity" (PyVal.num 0))
        let conf := pyNumD (sentimentData.getD "confidence" (PyVal.num 0.3))
        match env.price symbol with
        | Option.none => Option.none
        | some pd =>
            match calculateDivergenceScore env.resolveName symbol pol conf
                pd 2000 with
            | Except.error _ => Option.none
            | Except.ok Option.none => Option.none
            | Except.ok (some opp) =>
                if opp.conviction_score ≥ minConviction then some opp
                else Option.none

/-- Function `scan_market` from `app/trading/scanner.py`: collect the surviving
opportunities in input order, sort by descending conviction, truncate to
`max_results`. -/
def scanMarket (env : ScanEnv) (symbols : List String) (minConviction : ℚ)
    (maxResults : ℕ) : List OpportunityScore :=
  let opportunities := symbols.foldl (fun acc symbol =>
    match scanSymbol env minConviction symbol with
    | some opp => acc ++ [opp]
    | Option.none => acc) []
  (sortByConviction opportunities).take maxResults

/-! ## `app/trading/backtest.py` -/

/-- A price bar of the yfinance history frame, with the columns the
backtest loop reads (dates are abstract integers, in days). -/
structure Bar where
  date : ℤ
  opn : ℚ
  high : ℚ
  low : ℚ
  close : ℚ
deriving DecidableEq, Repr

def defaultBar : Bar :=
  { date := 0, opn := 0, high := 0, low := 0, close := 0 }

/-- Structure `TradeResult` from `app/trading/backtest.py`. -/
structure TradeResult where
  symbol : String
  entry_date : ℤ
  entry_price : ℚ
  exit_date : ℤ
  exit_price : ℚ
  exit_reason : String
  gain_pct : ℚ
  profit_dollars : ℤ
  is_win : Bool
deriving DecidableEq, Repr

/-- The oracles of `backtest_strategy`: the yfinance history fetch (called
with `start_date - 30 days` and `end_date`; an empty list is an empty
frame), and `should_enter_trade` (which goes back to yfinance for the
momentum proxy, hence an oracle of symbol, date and strategy name). -/
structure BacktestEnv where
  bars : String → ℤ → ℤ → List Bar
  shouldEnter : String → ℤ → String → Bool

/-- The inner exit walk of `backtest_strategy` (`for j in range(1,
hold_days + 1)`, with `break` on `i + j >= len(hist)`): the walked bars
are exactly `(hist.drop (i+1)).take holdDays`, which the caller passes as
the list argument together with the running index `j` (starting at 1).
The state is the current `(exit_price, exit_date, exit_reason)`,
initialised to the entry bar and `"timeout"`.  On each walked bar the
stop-loss is checked first, then the targets from the highest down, each
returning at once (the `break`); otherwise, when `j == hold_days - 1`,
the state is overwritten with the close of that bar (the "close at market"
line of the source) and the walk continues. -/
def walkExit (stopLoss target1 target2 target3 : ℚ) (holdDays : ℕ) :
    List Bar → ℕ → ℚ × ℤ × String → ℚ × ℤ × String
  | [], _, st => st
  | bar :: rest, j, st =>
      if bar.low ≤ stopLoss then (stopLoss, bar.date, "stop_loss")
      else if bar.high ≥ target3 then (target3, bar.date, "target_3")
      else if bar.high ≥ target2 then (target2, bar.date, "target_2")
      else if bar.high ≥ target1 then (target1, bar.date, "target_1")
      else
        walkExit stopLoss target1 target2 target3 holdDays rest (j + 1)
          (if j = holdDays - 1 then (bar.close, bar.date, "timeout") else st)

/-- The entry loop of `backtest_strategy` over bar indices `i`, breaking
as soon as `i + hold_days >= len(hist)`.  Structurally, the loop walks
the suffix `hist.drop i`: the break condition `i + hold_days >=
len(hist)` is `hold_days >= len(suffix)`, and the exit walk of an entry
at the suffix head gets the following `hold_days` bars.  The entry price
is `entry_price or row["Open"]` immediately overwritten with the close
when `entry_price` is `None` or `0` (the two source lines are transcribed
as written). -/
def entryLoop (env : BacktestEnv) (symbol strategyName : String)
    (entryPrice : Option ℚ)
    (stopLossPct target1Pct target2Pct target3Pct : ℚ) (holdDays : ℕ)
    (positionSize : ℤ) : List Bar → List TradeResult
  | [] => []
  | bar :: rest =>
      if holdDays ≥ (bar :: rest).length then []
      else
        let tail := entryLoop env symbol strategyName entryPrice stopLossPct
          target1Pct target2Pct target3Pct holdDays positionSize rest
        if ¬ env.shouldEnter symbol bar.date strategyName then tail
        else
          let entry0 :=
            match entryPrice with
            | some ep => if ep ≠ 0 then ep else bar.opn
            | Option.none => bar.opn
          let entry :=
            if entryPrice = Option.none ∨ entryPrice = some 0 then bar.close
            else entry0
          let stopLoss := entry * (1 - stopLossPct)
          let target1 := entry * (1 + target1Pct)
          let target2 := entry * (1 + target2Pct)
          let target3 := entry * (1 + target3Pct)
          let ex := walkExit stopLoss target1 target2 target3 holdDays
            (rest.take holdDays) 1 (entry, bar.date, "timeout")
          let gainPct := (ex.1 - entry) / entry
          let profit := pyTrunc ((ex.1 - entry) * (positionSize : ℚ))
          { symbol := symbol, entry_date := bar.date, entry_price := entry,
            exit_date := ex.2.1, exit_price := ex.1, exit_reason := ex.2.2,
            gain_pct := gainPct, profit_dollars := profit,
            is_win := profit > 0 } :: tail

/-- The symbol loop of `backtest_strategy`: fetch the lead-in extended
history, skip the symbol when the frame is empty or shorter than
`hold_days`, otherwise run the entry loop. -/
def backtestTrades (env : BacktestEnv) (symbols : List String)
    (strategyName : String) (startDate endDate : ℤ) (entryPrice : Option ℚ)
    (stopLossPct target1Pct target2Pct target3Pct : ℚ) (holdDays : ℕ)
    (positionSize : ℤ) : List TradeResult :=
  symbols.foldl (fun acc symbol =>
    let hist := env.bars symbol (startDate - 30) endDate
    if hist.isEmpty ∨ hist.length < holdDays then acc
    else acc ++ entryLoop env symbol strategyName entryPrice stopLossPct
      target1Pct target2Pct target3Pct holdDays positionSize hist) []

/-- Longest win and loss streaks over the trade sequence (each trade
resets the opposite counter). -/
def streaks (trades : List TradeResult) : ℕ × ℕ :=
  let final := trades.foldl (fun (st : ℕ × ℕ × ℕ × ℕ) t =>
    let (maxW, maxL, curW, curL) := st
    if t.is_win then (max maxW (curW + 1), maxL, curW + 1, 0)
    else (maxW, max maxL (curL + 1), 0, curL + 1)) (0, 0, 0, 0)
  (final.1, final.2.1)

/-- Mean of a list of rationals (`np.mean`; callers guard emptiness). -/
def ratMean (l : List ℚ) : ℚ :=
  l.sum / (l.length : ℚ)

/-- Python `round(x, 2)` on the exact rational value: round half to
even. -/
def pyRound2 (q : ℚ) : ℚ :=
  let r := q * 100
  let f := Int.floor r
  let frac := r - (f : ℚ)
  let n : ℤ :=
    if frac < 1/2 then f
    else if frac > 1/2 then f + 1
    else if f % 2 = 0 then f else f + 1
  (n : ℚ) / 100

/-- The value of `backtest_strategy`.  The `report` constructor carries
the summary statistics that are exact rationals.  Two entries of the
source report dictionary are not embedded, and no claim mentions either:
`sharpe_ratio` multiplies by `sqrt(252)` and divides by a standard
deviation, both irrational in general, and `max_drawdown_pct` divides by
a running maximum that can be zero, where numpy produces IEEE inf/nan
rather than a number.  The `trades` display list keeps the first 50
trades (their re-formatting into strings is display only). -/
inductive BacktestResult where
  | noTrades (error : String) (symbol_count : ℕ) (total_trades : ℕ)
  | report (total_trades winning_trades losing_trades : ℕ)
      (win_rate_pct avg_win_pct avg_loss_pct avg_gain_pct : ℚ)
      (total_profit : ℤ) (largest_win largest_loss : ℚ)
      (profit_factor : ℚ) (consecutive_wins consecutive_losses : ℕ)
      (signal_type : String) (trades : List TradeResult)
deriving DecidableEq, Repr

/-- Function `backtest_strategy` from `app/trading/backtest.py`.  The `None`
defaults of `start_date` / `end_date` (one year back from now, now) are
resolved by the caller of the embedding; every other default matches the
source signature. -/
def backtestStrategy (env : BacktestEnv) (symbols : List String)
    (strategyName : String) (startDate endDate : ℤ) (entryPrice : Option ℚ)
    (stopLossPct : ℚ := 0.10) (target1Pct : ℚ := 0.20)
    (target2Pct : ℚ := 0.50) (target3Pct : ℚ := 1.00) (holdDays : ℕ := 30)
    (positionSize : ℤ := 100) : BacktestResult :=
  let allTrades := backtestTrades env symbols strategyName startDate endDate
    entryPrice stopLossPct target1Pct target2Pct target3Pct holdDays
    positionSize
  if allTrades.isEmpty then
    BacktestResult.noTrades "No trades generated with current parameters"
      symbols.length 0
  else
    let winners := allTrades.filter (fun t => t.is_win)
    let losers := allTrades.filter (fun t => ! t.is_win)
    let winCount := winners.length
    let lossCount := losers.length
    let totalCount := allTrades.length
    let avgWin := if ¬ winners.isEmpty then
      ratMean (winners.map (fun t => t.gain_pct)) else 0
    let avgLoss := if ¬ losers.isEmpty then
      ratMean (losers.map (fun t => t.gain_pct)) else 0
    let avgGain := ratMean (allTrades.map (fun t => t.gain_pct))
    let totalProfit := (allTrades.map (fun t => t.profit_dollars)).sum
    let grossProfit := if ¬ winners.isEmpty then
      (winners.map (fun t => t.profit_dollars)).sum else 0
    let grossLoss : ℕ := if ¬ losers.isEmpty then
      Int.natAbs ((losers.map (fun t => t.profit_dollars)).sum) else 0
    let profitFactor : ℚ :=
      if grossLoss > 0 then (grossProfit : ℚ) / (grossLoss : ℚ) else 0
    let sks := streaks allTrades
    BacktestResult.report totalCount winCount lossCount
      (if totalCount > 0 then (winCount : ℚ) / (totalCount : ℚ) * 100 else 0)
      (avgWin * 100) (avgLoss * 100) (avgGain * 100)
      totalProfit
      (if ¬ winners.isEmpty then
        ((winners.map (fun t => t.gain_pct)).foldl max
          ((winners.map (fun t => t.gain_pct)).headD 0)) * 100 else 0)
      (if ¬ losers.isEmpty then
        ((losers.map (fun t => t.gain_pct)).foldl min
          ((losers.map (fun t => t.gain_pct)).headD 0)) * 100 else 0)
      (pyRound2 profitFactor) sks.1 sks.2 strategyName (allTrades.take 50)

/-! ## Lemmas and claim theorems -/

lemma polarityOf_mem (f : Features) :
    -1 ≤ polarityOf f ∧ polarityOf f ≤ 1 := by
  unfold polarityOf
  split
  · constructor
    · exact le_trans (by norm_num) (le_max_left (-1.0 : ℚ) _)
    · exact max_le (by norm_num) (le_trans (min_le_left _ _) (by norm_num))
  · norm_num

lemma subjectivityOf_mem (f : Features) :
    0 ≤ subjectivityOf f ∧ subjectivityOf f ≤ 1 := by
  unfold subjectivityOf
  have h1 : (0:ℚ) ≤ if f.has_first_person then (0.3 : ℚ) else 0 := by
    split_ifs <;> norm_num
  have h2 : (0:ℚ) ≤ if f.has_opinion_words then (0.3 : ℚ) else 0 := by
    split_ifs <;> norm_num
  have h3 : (0:ℚ) ≤ if f.exclamation_count > 0 then
      min 0.2 ((f.exclamation_count : ℚ) * 0.1) else 0 := by
    split_ifs
    · exact le_min (by norm_num) (by positivity)
    · norm_num
  have h4 : (0:ℚ) ≤ if f.caps_ratio > 0.3 then (0.2 : ℚ) else 0 := by
    split_ifs <;> norm_num
  constructor
  · exact le_min (by norm_num)
      (add_nonneg (add_nonneg (add_nonneg
        (add_nonneg (by norm_num : (0:ℚ) ≤ 0.0) h1) h2) h3) h4)
  · exact le_trans (min_le_left _ _) (by norm_num)

lemma detectSarcasm_mem (text : List Char) (f : Features) :
    0 ≤ detectSarcasm text f ∧ detectSarcasm text f ≤ 1 := by
  unfold detectSarcasm
  have hsum : (0:ℚ) ≤ (SARCASM_INDICATORS.map
      (fun ind => if containsSub (lowerChars text) ind.data
        then (0.3 : ℚ) else 0)).sum := by
    apply List.sum_nonneg
    intro x hx
    simp only [List.mem_map] at hx
    obtain ⟨ind, _, rfl⟩ := hx
    split_ifs <;> norm_num
  have h1 : (0:ℚ) ≤ if f.caps_ratio > 0.5 ∧ f.sentiment_score > 0
      then (0.2 : ℚ) else 0 := by split_ifs <;> norm_num
  have h2 : (0:ℚ) ≤ if f.exclamation_count > 3 then (0.1 : ℚ) else 0 := by
    split_ifs <;> norm_num
  have h3 : (0:ℚ) ≤ if countSub text ['?', '?'] > 0 then (0.2 : ℚ) else 0 := by
    split_ifs <;> norm_num
  constructor
  · exact le_min (by norm_num)
      (add_nonneg (add_nonneg (add_nonneg hsum h1) h2) h3)
  · exact le_trans (min_le_left _ _) (by norm_num)

lemma confidenceOf_mem (f : Features) (sarcasm : ℚ) :
    0 ≤ confidenceOf f sarcasm ∧ confidenceOf f sarcasm ≤ 1 := by
  unfold confidenceOf
  have h1 : (0:ℚ) ≤ if f.word_count ≥ 3 then (0.2 : ℚ) else 0 := by
    split_ifs <;> norm_num
  have h2 : (0:ℚ) ≤ if f.word_count ≥ 5 then (0.2 : ℚ) else 0 := by
    split_ifs <;> norm_num
  have h3 : (0:ℚ) ≤ if f.emoji_score ≠ 0 then (0.1 : ℚ) else 0 := by
    split_ifs <;> norm_num
  have hconf : (0:ℚ) ≤ (0.3 : ℚ)
      + (if f.word_count ≥ 3 then (0.2 : ℚ) else 0)
      + (if f.word_count ≥ 5 then (0.2 : ℚ) else 0)
      + (if f.emoji_score ≠ 0 then (0.1 : ℚ) else 0) :=
    add_nonneg (add_nonneg (add_nonneg
      (by norm_num : (0:ℚ) ≤ (0.3:ℚ)) h1) h2) h3
  constructor
  · refine le_min (by norm_num) ?_
    rcases le_or_lt sarcasm (0.5 : ℚ) with h | h
    · rw [if_neg (not_lt.mpr h)]
      exact hconf
    · rw [if_pos h]
      exact mul_nonneg hconf (by norm_num)
  · exact le_trans (min_le_left _ _) (by norm_num)

/-- C9.  For every input text, `score_text` returns a polarity in
`[-1, 1]` and a subjectivity, sarcasm probability and confidence each in
`[0, 1]`. -/
theorem c9_sentiment_score_bounds (t : String) :
    -1 ≤ (scoreText t).polarity ∧ (scoreText t).polarity ≤ 1 ∧
    0 ≤ (scoreText t).subjectivity ∧ (scoreText t).subjectivity ≤ 1 ∧
    0 ≤ (scoreText t).sarcasm_prob ∧ (scoreText t).sarcasm_prob ≤ 1 ∧
    0 ≤ (scoreText t).confidence ∧ (scoreText t).confidence ≤ 1 := by
  unfold scoreText
  split
  · norm_num
  · dsimp only
    exact ⟨(polarityOf_mem _).1, (polarityOf_mem _).2,
      (subjectivityOf_mem _).1, (subjectivityOf_mem _).2,
      (detectSarcasm_mem _ _).1, (detectSarcasm_mem _ _).2,
      (confidenceOf_mem _ _).1, (confidenceOf_mem _ _).2⟩

lemma parseWindow_concat (cs : List Char) (u : Char) :
    parseWindow (String.mk (cs ++ [u])) =
      match pyIntOfStr (String.mk cs) with
      | Option.none =>
          Except.error ("Invalid window format: " ++ String.mk (cs ++ [u]))
      | some n =>
          if u.toLower = 'h' then Except.ok n
          else if u.toLower = 'd' then Except.ok (24 * n)
          else Except.ok 24 := by
  unfold parseWindow
  rw [show (String.mk (cs ++ [u])).data = cs ++ [u] from rfl]
  rw [List.dropLast_concat, List.getLast?_concat]

/-- C7.  Window parsing: an integer count followed by the unit `h` or `d`
parses to exactly that many hours (respectively days, embedded as 24
hours each); a window whose count slice `window[:-1]` is not a valid
integer — which covers every string too short to carry one — raises the
invalid-window `ValueError`; a valid count with an unrecognised unit does
not fail but falls back to 24 hours. -/
theorem c7_parse_window :
    (∀ (s : String) (n : ℤ), pyIntOfStr s = some n →
      parseWindow (String.mk (s.data ++ ['h'])) = Except.ok n ∧
      parseWindow (String.mk (s.data ++ ['d'])) = Except.ok (24 * n)) ∧
    (∀ w : String, pyIntOfStr (String.mk w.data.dropLast) = Option.none →
      parseWindow w = Except.error ("Invalid window format: " ++ w)) ∧
    (∀ (s : String) (n : ℤ) (u : Char), pyIntOfStr s = some n →
      u.toLower ≠ 'h' → u.toLower ≠ 'd' →
      parseWindow (String.mk (s.data ++ [u])) = Except.ok 24) := by
  have hmk : ∀ s : String, String.mk s.data = s := fun s => rfl
  refine ⟨?_, ?_, ?_⟩
  · intro s n h
    constructor
    · rw [parseWindow_concat, hmk, h]
      rfl
    · rw [parseWindow_concat, hmk, h]
      rfl
  · intro w h
    unfold parseWindow
    rw [h]
  · intro s n u h hu1 hu2
    rw [parseWindow_concat, hmk, h]
    simp only [if_neg hu1, if_neg hu2]

/-- C7 witness: `"24h"` is 24 hours and `"24d"` is 24 days; `"xh"` (count
slice `"x"`) raises; `"5x"` (valid count, unknown unit) is 24 hours. -/
theorem c7_parse_window_witness :
    parseWindow (String.mk ("24".data ++ ['h'])) = Except.ok 24 ∧
    parseWindow (String.mk ("24".data ++ ['d'])) = Except.ok (24 * 24) ∧
    parseWindow "xh" = Except.error ("Invalid window format: " ++ "xh") ∧
    parseWindow (String.mk ("5".data ++ ['x'])) = Except.ok 24 := by
  refine ⟨(c7_parse_window.1 "24" 24 (by decide)).1,
    (c7_parse_window.1 "24" 24 (by decide)).2,
    c7_parse_window.2.1 "xh" (by decide),
    c7_parse_window.2.2 "5" 5 'x' (by decide) (by decide) (by decide)⟩

/-- Persisted scores of the worked example of the spec: source `a` has 1
post of polarity 1.0, source `b` has 3 posts of polarity -1.0, all inside
the window. -/
def demoRowsAB : List ScoredPost :=
  [{ source := "a", symbols := ["X"], created_at := 5, polarity := 1 },
   { source := "b", symbols := ["X"], created_at := 5, polarity := -1 },
   { source := "b", symbols := ["X"], created_at := 6, polarity := -1 },
   { source := "b", symbols := ["X"], created_at := 7, polarity := -1 }]

lemma sourceCount_pos_of_mem {rows : List ScoredPost} {symbol : String}
    {since : ℤ} {s : String} (h : s ∈ matchingSources rows symbol since) :
    1 ≤ sourceCount rows symbol since s := by
  unfold matchingSources at h
  rw [List.mem_dedup, List.mem_map] at h
  obtain ⟨r, hr, rfl⟩ := h
  unfold sourceCount
  have : r ∈ (matchingRows rows symbol since).filter
      (fun x => x.source = r.source) := by
    rw [List.mem_filter]
    exact ⟨hr, by simp⟩
  calc 1 ≤ 1 := le_rfl
    _ ≤ _ := List.length_pos.mpr (List.ne_nil_of_mem this)

/-- C1.  The final aggregation refines the two-stage weighting of the
spec: for every persisted row set, symbol and window start, the weighted
sentiment of `DB.aggregate` equals the count-weighted mean of the
per-source mean polarities over the rows with `createdAt >= windowStart`;
an empty persisted set gives count 0 and weighted sentiment 0; and the
worked example — source `a` with 1 post of polarity 1.0 against source
`b` with 3 posts of polarity -1.0 — aggregates to -0.5 over 4 posts. -/
theorem c1_aggregate_weighted_mean :
    (∀ (rows : List ScoredPost) (symbol : String) (since : ℤ),
      (dbAggregate rows symbol since).weighted_sentiment =
        specWeightedSentiment rows symbol since) ∧
    (∀ (symbol : String) (since : ℤ),
      (dbAggregate [] symbol since).count = 0 ∧
      (dbAggregate [] symbol since).weighted_sentiment = 0) ∧
    (dbAggregate demoRowsAB "X" 0).weighted_sentiment = -(1/2) ∧
    (dbAggregate demoRowsAB "X" 0).count = 4 := by
  refine ⟨?_, ?_, by with_unfolding_all rfl, by decide⟩
  · intro rows symbol since
    unfold dbAggregate specWeightedSentiment
    by_cases h : (matchingSources rows symbol since).isEmpty
    · rw [if_pos h]
      rw [List.isEmpty_iff] at h
      rw [h]
      norm_num
    · rw [if_neg h]
      dsimp only
      have hpos : 0 < ((matchingSources rows symbol since).map
          (fun s => sourceCount rows symbol since s)).sum := by
        rcases hsrc : matchingSources rows symbol since with _ | ⟨s, rest⟩
        · rw [hsrc] at h
          simp at h
        · rw [List.map_cons, List.sum_cons]
          have h1 : 1 ≤ sourceCount rows symbol since s :=
            sourceCount_pos_of_mem (by rw [hsrc]; exact List.mem_cons_self s rest)
          omega
      rw [if_pos hpos]
      have hfun : (fun s => if sourceAvgPolarity rows symbol since s ≠ 0 then
            sourceAvgPolarity rows symbol since s *
              (sourceCount rows symbol since s : ℚ)
          else 0) = (fun s => sourceAvgPolarity rows symbol since s *
            (sourceCount rows symbol since s : ℚ)) := by
        funext s
        by_cases hz : sourceAvgPolarity rows symbol since s = 0
        · simp [hz]
        · simp [hz]
      rw [hfun]
      have hden : ((((matchingSources rows symbol since).map
            (fun s => sourceCount rows symbol since s)).sum : ℕ) : ℚ) =
          ((matchingSources rows symbol since).map
            (fun s => (sourceCount rows symbol since s : ℚ))).sum := by
        rw [Nat.cast_list_sum, List.map_map]
        rfl
      rw [hden]
  · intro symbol since
    constructor
    · rfl
    · norm_num [dbAggregate, matchingSources, matchingRows]

/-- Two posts with the same `(source, platform_id)` key and different
content. -/
def demoPostA : SocialPost :=
  { source := "x", platform_id := "p1", author_id := "alice",
    created_at := 0, text := "alpha", symbols := [] }

def demoPostB : SocialPost :=
  { source := "x", platform_id := "p1", author_id := "bob",
    created_at := 1, text := "beta", symbols := [] }

/-- C5 counterexample.  Upserting two posts with the same key and
different texts leaves exactly one row, but its text is the FIRST text
(`"alpha"`): the `DO UPDATE` arm only refreshes `ingested_at`, so the
stored content does not reflect the latest upsert. -/
theorem c5_latest_content_counterexample :
    (upsertPost (upsertPost [] 10 demoPostA).1 20 demoPostB).1 =
      [{ id := 0, source := "x", platform_id := "p1", author_id := "alice",
         created_at := 0, text := "alpha", ingested_at := 20 }] ∧
    demoPostB.text = "beta" ∧ ("alpha" : String) ≠ "beta" := by
  refine ⟨by decide, by decide, by decide⟩

/-- C5 amended.  Upserting two posts with identical `(source,
platform_id)` keys yields exactly one stored row; its content (text and
the other inserted columns) is that of the FIRST upsert, only the
`ingested_at` freshness timestamp reflects the second; both upserts
return the same row id. -/
theorem c5_upsert_dedup_first_wins (p q : SocialPost) (n1 n2 : ℤ)
    (hs : p.source = q.source) (hp : p.platform_id = q.platform_id) :
    (upsertPost (upsertPost [] n1 p).1 n2 q).1 =
      [{ id := 0, source := p.source, platform_id := p.platform_id,
         author_id := p.author_id, created_at := p.created_at,
         text := p.text, ingested_at := n2 }] ∧
    (upsertPost (upsertPost [] n1 p).1 n2 q).2 =
      (upsertPost [] n1 p).2 := by
  have h1 : (upsertPost [] n1 p).1 =
      [{ id := 0, source := p.source, platform_id := p.platform_id,
         author_id := p.author_id, created_at := p.created_at,
         text := p.text, ingested_at := n1 }] := rfl
  have h2 : (upsertPost [] n1 p).2 = 0 := rfl
  rw [h1, h2]
  simp [upsertPost, List.find?, hs, hp]

/-- C5 witness for the amended theorem, at the two concrete posts. -/
theorem c5_upsert_dedup_first_wins_witness :
    (upsertPost (upsertPost [] 10 demoPostA).1 20 demoPostB).1 =
      [{ id := 0, source := demoPostA.source,
         platform_id := demoPostA.platform_id,
         author_id := demoPostA.author_id,
         created_at := demoPostA.created_at,
         text := demoPostA.text, ingested_at := 20 }] ∧
    (upsertPost (upsertPost [] 10 demoPostA).1 20 demoPostB).2 =
      (upsertPost [] 10 demoPostA).2 :=
  c5_upsert_dedup_first_wins demoPostA demoPostB 10 20 rfl rfl

lemma calculateDivergenceScore_err (rn : String → Option String)
    (symbol : String) (pol conf : ℚ) (pd : PriceData) (maxLoss : ℚ) :
    calculateDivergenceScore rn symbol pol conf pd maxLoss =
      Except.error (PyErr.attributeError "price_change_30d") := rfl

/-- C3.  The classification chain of `calculate_divergence_score` reads
the attribute `price_change_30d`, which the `PriceData` model does not
declare (its fields are `price_change_pct_7d` / `price_change_pct_30d`),
so every call — in particular the one of the claim, with a 30-day change
of -20, polarity 0.7 and confidence 0.5 — raises `AttributeError`
instead of classifying the symbol as a reversal with conviction 7.0. -/
theorem c3_classification_attribute_error :
    (∀ (rn : String → Option String) (symbol : String) (pol conf : ℚ)
        (pd : PriceData) (maxLoss : ℚ),
      calculateDivergenceScore rn symbol pol conf pd maxLoss =
        Except.error (PyErr.attributeError "price_change_30d")) ∧
    calculateDivergenceScore (fun _ => Option.none) "RVSL" 0.7 0.5
      { symbol := "RVSL", current_price := 100, price_change_pct_7d := 5,
        price_change_pct_30d := -20, volume_7d_avg := 0,
        volume_30d_avg := 0, is_up_trend := false } 2000 =
      Except.error (PyErr.attributeError "price_change_30d") :=
  ⟨fun _ _ _ _ _ _ => rfl, rfl⟩

/-- C6 counterexample.  At `maxLoss = 2000` and entry price 100, with
inputs satisfying the reversal pattern, `calculate_divergence_score`
raises `AttributeError` rather than producing the opportunity of the
claim (stop loss 90, risk 10 per unit, 200 units): no opportunity is
produced at all. -/
theorem c6_no_opportunity_counterexample :
    calculateDivergenceScore (fun _ => Option.none) "AAPL" 0.8 0.5
      { symbol := "AAPL", current_price := 100, price_change_pct_7d := 1,
        price_change_pct_30d := -20, volume_7d_avg := 0,
        volume_30d_avg := 0, is_up_trend := false } 2000 =
      Except.error (PyErr.attributeError "price_change_30d") := rfl

/-- C6 amended.  In the trade-plan block of `calculate_divergence_score`
(unreachable as written because of the `AttributeError` of C3, but
transcribed verbatim in `finishOpportunity`): with the conviction cut-off
passed, a positive entry price `E` and a positive unit count, the
produced opportunity has `stopLoss = E * 0.9` (so `riskPerUnit = E -
stopLoss = 0.1 * E`), targets `E * 1.2 / E * 1.5 / E * 2.0`, a risk
reward ratio that the formula `((target1 + target2) / 2 - E) /
riskPerUnit` makes identically 3.5, and — in place of a
`positionSizeUnits` field, which the model does not have — a
`position_size_dollars` field holding `int(int(maxLoss / riskPerUnit) *
E)`; the symbol is excluded (no opportunity) when the internal unit
count `int(maxLoss / riskPerUnit)` is not positive. -/
theorem c6_trade_plan_formulas :
    (∀ (rn : String → Option String) (symbol : String)
        (pol conf base : ℚ) (signal : String) (pd : PriceData) (maxLoss : ℚ),
      ¬ (min 10.0 (base + conf * 2) < 3.5) →
      0 < pd.current_price →
      0 < pyTrunc (maxLoss / (pd.current_price - pd.current_price * 0.9)) →
      (finishOpportunity rn symbol pol conf base signal pd maxLoss).map
          (fun o => o.conviction_score) = some (min 10.0 (base + conf * 2)) ∧
      (finishOpportunity rn symbol pol conf base signal pd maxLoss).map
          (fun o => o.stop_loss) = some (pd.current_price * 0.9) ∧
      (finishOpportunity rn symbol pol conf base signal pd maxLoss).map
          (fun o => o.target_1) = some (pd.current_price * 1.20) ∧
      (finishOpportunity rn symbol pol conf base signal pd maxLoss).map
          (fun o => o.target_2) = some (pd.current_price * 1.50) ∧
      (finishOpportunity rn symbol pol conf base signal pd maxLoss).map
          (fun o => o.target_3) = some (pd.current_price * 2.00) ∧
      (finishOpportunity rn symbol pol conf base signal pd maxLoss).map
          (fun o => o.position_size_dollars) =
        some (pyTrunc ((pyTrunc (maxLoss /
          (pd.current_price - pd.current_price * 0.9)) : ℚ) *
            pd.current_price)) ∧
      (finishOpportunity rn symbol pol conf base signal pd maxLoss).map
          (fun o => o.risk_reward_ratio) = some 3.5) ∧
    (∀ (rn : String → Option String) (symbol : String)
        (pol conf base : ℚ) (signal : String) (pd : PriceData) (maxLoss : ℚ),
      ¬ (min 10.0 (base + conf * 2) < 3.5) →
      0 < pd.current_price →
      pyTrunc (maxLoss / (pd.current_price - pd.current_price * 0.9)) ≤ 0 →
      finishOpportunity rn symbol pol conf base signal pd maxLoss =
        Option.none) ∧
    pyTrunc ((2000 : ℚ) / (100 - 90)) = 200 := by
  have hrisk : ∀ pd : PriceData, 0 < pd.current_price →
      (0:ℚ) < pd.current_price - pd.current_price * 0.9 := by
    intro pd h
    nlinarith
  refine ⟨?_, ?_, by with_unfolding_all rfl⟩
  · intro rn symbol pol conf base signal pd maxLoss h1 h2 h3
    have hrr : (pd.current_price * 1.20 * 0.5 + pd.current_price * 1.50 * 0.5
          - pd.current_price) / (pd.current_price - pd.current_price * 0.9)
        = 3.5 := by
      rw [div_eq_iff (ne_of_gt (hrisk pd h2))]
      ring
    unfold finishOpportunity
    dsimp only
    rw [if_neg h1, if_pos (hrisk pd h2), if_neg (not_le.mpr h3),
      if_pos (hrisk pd h2), hrr]
    exact ⟨rfl, rfl, rfl, rfl, rfl, rfl, rfl⟩
  · intro rn symbol pol conf base signal pd maxLoss h1 h2 h3
    unfold finishOpportunity
    dsimp only
    rw [if_neg h1, if_pos (hrisk pd h2), if_pos h3]

/-- C6 witness for the amended theorem: the trade plan at entry price
100, maxLoss 2000, base 6 and confidence 0.5 yields stop loss 90,
targets 120/150/200, conviction 7, risk reward 3.5 and 20000 recorded
dollars (200 internal units); with maxLoss 0 the unit count is 0 and the
symbol is excluded. -/
theorem c6_trade_plan_formulas_witness :
    ((finishOpportunity (fun _ => Option.none) "AAPL" 0.8 0.5 6 "reversal"
        { symbol := "AAPL", current_price := 100, price_change_pct_7d := 1,
          price_change_pct_30d := -20, volume_7d_avg := 0,
          volume_30d_avg := 0, is_up_trend := false } 2000).map
      (fun o => o.stop_loss) = some ((100 : ℚ) * 0.9)) ∧
    ((finishOpportunity (fun _ => Option.none) "AAPL" 0.8 0.5 6 "reversal"
        { symbol := "AAPL", current_price := 100, price_change_pct_7d := 1,
          price_change_pct_30d := -20, volume_7d_avg := 0,
          volume_30d_avg := 0, is_up_trend := false } 0) =
      Option.none) ∧
    pyTrunc ((2000 : ℚ) / (100 - 90)) = 200 := by
  refine ⟨(c6_trade_plan_formulas.1 (fun _ => Option.none) "AAPL" 0.8 0.5 6
      "reversal" _ 2000 (by norm_num) (by norm_num) ?h3).2.1,
    c6_trade_plan_formulas.2.1 (fun _ => Option.none) "AAPL" 0.8 0.5 6
      "reversal" _ 0 (by norm_num) (by norm_num) ?h0,
    c6_trade_plan_formulas.2.2⟩
  case h3 => with_unfolding_all decide
  case h0 => with_unfolding_all decide

/-- Four flat bars: the stop (90) and the first target (120) of an entry
at close 100 are never touched, so a trade entered at bar 0 with
`hold_days = 3` times out. -/
def demoBarsFlat : List Bar :=
  [{ date := 0, opn := 100, high := 105, low := 95, close := 100 },
   { date := 1, opn := 101, high := 105, low := 95, close := 101 },
   { date := 2, opn := 102, high := 105, low := 95, close := 102 },
   { date := 3, opn := 103, high := 105, low := 95, close := 103 }]

def demoBacktestEnvFlat : BacktestEnv :=
  { bars := fun _ _ _ => demoBarsFlat, shouldEnter := fun _ _ _ => true }

/-- Bar 1 crosses target 1 (120), target 2 (150) and target 3 (200) of an
entry at close 100 intrabar without touching the stop. -/
def demoBarsHit : List Bar :=
  [{ date := 0, opn := 100, high := 100, low := 100, close := 100 },
   { date := 1, opn := 101, high := 250, low := 95, close := 101 },
   { date := 2, opn := 102, high := 105, low := 95, close := 102 },
   { date := 3, opn := 103, high := 105, low := 95, close := 103 }]

def demoBacktestEnvHit : BacktestEnv :=
  { bars := fun _ _ _ => demoBarsHit, shouldEnter := fun _ _ _ => true }

/-- C2.  First conjunct: the fixed exit priority holds — a bar whose high
crosses target 1, target 2 and target 3 on the same day exits at target 3
(price 200), not a lower target.  Remaining conjuncts: the timeout leg of
the claim fails — with `hold_days = 3` the walked bars are indices 1, 2
and 3, and when no threshold is ever hit the simulated trade closes at
the close of bar 2 (102, the SECOND-TO-LAST walked bar, because the
`j == hold_days - 1` guard fires one bar early), not at the close 103 of
the last walked bar 3, which is what the claim (and the source comment
"On last day, close at market") prescribes. -/
theorem c2_backtest_exit :
    backtestTrades demoBacktestEnvHit ["T"] "momentum" 10 20 Option.none
        0.10 0.20 0.50 1.00 3 100 =
      [{ symbol := "T", entry_date := 0, entry_price := 100, exit_date := 1,
         exit_price := 200, exit_reason := "target_3", gain_pct := 1,
         profit_dollars := 10000, is_win := true }] ∧
    backtestTrades demoBacktestEnvFlat ["T"] "momentum" 10 20 Option.none
        0.10 0.20 0.50 1.00 3 100 =
      [{ symbol := "T", entry_date := 0, entry_price := 100, exit_date := 2,
         exit_price := 102, exit_reason := "timeout", gain_pct := 1/50,
         profit_dollars := 200, is_win := true }] ∧
    (demoBarsFlat.getD 3 defaultBar).close = 103 ∧
    ((102 : ℚ) ≠ 103) := by
  refine ⟨?_, ?_, by decide, by decide⟩
  · norm_num [backtestTrades, entryLoop, walkExit, demoBacktestEnvHit,
      demoBarsHit, pyTrunc]
  · norm_num [backtestTrades, entryLoop, walkExit, demoBacktestEnvFlat,
      demoBarsFlat, pyTrunc]

/-- C10.  On an empty symbol list the scan returns the empty list and the
backtest returns the explicit no-trades report with `total_trades = 0`;
both are total functions of the embedding, so neither raises. -/
theorem c10_empty_inputs (senv : ScanEnv) (benv : BacktestEnv)
    (minConviction : ℚ) (maxResults : ℕ) (strategyName : String)
    (startDate endDate : ℤ) (entryPrice : Option ℚ)
    (stopLossPct target1Pct target2Pct target3Pct : ℚ) (holdDays : ℕ)
    (positionSize : ℤ) :
    scanMarket senv [] minConviction maxResults = [] ∧
    backtestStrategy benv [] strategyName startDate endDate entryPrice
        stopLossPct target1Pct target2Pct target3Pct holdDays positionSize =
      BacktestResult.noTrades "No trades generated with current parameters"
        0 0 := by
  constructor
  · simp [scanMarket, sortByConviction]
  · rfl

lemma scanSymbol_none (env : ScanEnv) (minConviction : ℚ) (symbol : String) :
    scanSymbol env minConviction symbol = Option.none := by
  unfold scanSymbol
  cases aggregateSocial env.orch symbol "7d" with
  | error e => rfl
  | ok r =>
      dsimp only
      split
      · rfl
      · cases env.price symbol with
        | none => rfl
        | some pd =>
            dsimp only
            rw [calculateDivergenceScore_err]

lemma aggregateSocial_ok_sentiment (env : OrchEnv) (symbol window : String)
    (r : PyVal) (h : aggregateSocial env symbol window = Except.ok r) :
    r.get "sentiment" = Option.none := by
  unfold aggregateSocial at h
  cases hres : env.resolve symbol with
  | error e => rw [hres] at h; exact absurd h (by simp)
  | ok inst =>
  rw [hres] at h
  cases hwin : parseWindow window with
  | error e => rw [hwin] at h; exact absurd h (by simp)
  | ok delta =>
  rw [hwin] at h
  dsimp only at h
  split at h
  · cases h
    rfl
  · split at h
    · cases h
      rfl
    · cases hconn : env.db_connect with
      | error e => rw [hconn] at h; exact absurd h (by simp)
      | ok u =>
      rw [hconn] at h
      cases hrows : env.db_rows with
      | error e => rw [hrows] at h; exact absurd h (by simp)
      | ok rows =>
      rw [hrows] at h
      cases h
      rfl

/-- C4.  The market scan returns the empty list on every input: the
aggregation result never carries a `"sentiment"` key (second conjunct),
so the classification step always gets the defaults polarity 0 and
confidence 0.3 — and, independently, every call of
`calculate_divergence_score` raises `AttributeError` — hence no symbol
ever contributes an opportunity (first conjunct). -/
theorem c4_scan_always_empty :
    (∀ (env : ScanEnv) (symbols : List String) (minConviction : ℚ)
        (maxResults : ℕ),
      scanMarket env symbols minConviction maxResults = []) ∧
    (∀ (env : OrchEnv) (symbol window : String) (r : PyVal),
      aggregateSocial env symbol window = Except.ok r →
      r.get "sentiment" = Option.none) := by
  constructor
  · intro env symbols minConviction maxResults
    unfold scanMarket
    have hfold : symbols.foldl (fun acc symbol =>
        match scanSymbol env minConviction symbol with
        | some opp => acc ++ [opp]
        | Option.none => acc) [] = [] := by
      induction symbols with
      | nil => rfl
      | cons s ss ih =>
          rw [List.foldl_cons, scanSymbol_none]
          exact ih
    rw [hfold]
    simp [sortByConviction]
  · exact aggregateSocial_ok_sentiment

/-- The resolver result and environments of the concrete runs below. -/
def demoInstrument : ResolvedInstrument :=
  { symbol := "TSLA", company_name := "Tesla" }

/-- An orchestration environment in which every collector fails: the call
returns the valid empty result. -/
def demoOrchEnvNoPosts : OrchEnv :=
  { now := 100,
    resolve := fun _ => Except.ok demoInstrument,
    collect_x := fun _ _ => Except.error "down",
    collect_reddit := fun _ _ => Except.error "down",
    collect_stocktwits := fun _ _ => Except.error "down",
    collect_discord := fun _ _ => Except.error "down",
    db_connect := Except.ok (),
    db_upsert_post := fun _ => Except.ok 0,
    db_upsert_sentiment := fun _ _ => Except.ok (),
    db_store_embedding := fun _ => Except.ok (),
    db_rows := Except.ok [] }

def demoScanEnv : ScanEnv :=
  { orch := demoOrchEnvNoPosts, price := fun _ => Option.none,
    resolveName := fun _ => Option.none }

/-- C4 witness: a concrete scan comes back empty, and a concrete
successful aggregation result carries no `"sentiment"` key. -/
theorem c4_scan_always_empty_witness :
    scanMarket demoScanEnv ["TSLA"] 5 20 = [] ∧
    PyVal.get (PyVal.dict
      [("symbol", PyVal.str "TSLA"), ("posts_found", PyVal.num 0),
       ("posts_processed", PyVal.num 0), ("sources", sourcesPy 0 0 0 0),
       ("resolved_instrument", instPy demoInstrument),
       ("error", PyVal.str "No posts found for this symbol")]) "sentiment"
      = Option.none :=
  ⟨c4_scan_always_empty.1 demoScanEnv ["TSLA"] 5 20,
   c4_scan_always_empty.2 demoOrchEnvNoPosts "TSLA" "24h" _ rfl⟩

lemma setEntries_lookup_self (es : List (String × PyVal)) (k : String)
    (v : PyVal) : (setEntries es k v).lookup k = some v := by
  induction es with
  | nil => simp [setEntries]
  | cons e rest ih =>
      unfold setEntries
      by_cases hk : e.1 = k
      · simp [hk]
      · simp only [hk, if_false]
        rw [List.lookup_cons]
        simp [show (k == e.1) = false from by simp [BEq.beq]; exact fun he => hk he.symm]
        exact ih

/-- A post that survives normalisation, symbol extraction and the bot
filter. -/
def demoGoodPost : SocialPost :=
  { source := "x", platform_id := "42", author_id := "bob",
    created_at := 50, text := "$TSLA gonna moon big time today",
    symbols := [] }

/-- An orchestration environment in which collection and the per-post
writes succeed but the final aggregation query fails. -/
def demoOrchEnvDbDown : OrchEnv :=
  { now := 100,
    resolve := fun _ => Except.ok demoInstrument,
    collect_x := fun _ _ => Except.ok [demoGoodPost],
    collect_reddit := fun _ _ => Except.error "down",
    collect_stocktwits := fun _ _ => Except.error "down",
    collect_discord := fun _ _ => Except.error "down",
    db_connect := Except.ok (),
    db_upsert_post := fun _ => Except.ok 7,
    db_upsert_sentiment := fun _ _ => Except.ok (),
    db_store_embedding := fun _ => Except.ok (),
    db_rows := Except.error "aggregate query failed" }

/-- C8 counterexample.  A call in which resolution succeeds and the
window parses, but the final aggregation query against the store raises:
`aggregate_social` re-raises and the whole call aborts — so resolution
failure and a malformed window are NOT the only aborting paths. -/
theorem c8_db_failure_aborts :
    exceptOkB (aggregateSocial demoOrchEnvDbDown "TSLA" "24h") = false ∧
    exceptOkB (demoOrchEnvDbDown.resolve "TSLA") = true ∧
    exceptOkB (parseWindow "24h") = true :=
  ⟨rfl, rfl, rfl⟩

/-- C8 amended.  Each collector is isolated: whichever collectors raise,
a call whose resolution succeeds, whose window parses and whose final
persistence stage (opening the store and the aggregation query) succeeds
never aborts, and every successful result carries the per-source count
map, holding for each of the four sources the post count of its own collector
with a raising collector recorded as zero.  (Aborting paths — resolution
failure, a malformed window, and a failing final persistence stage — are
the complement; the last is exhibited by the counterexample.) -/
theorem c8_collector_isolation (env : OrchEnv) (symbol window : String)
    (inst : ResolvedInstrument) (delta : ℤ)
    (hres : env.resolve symbol = Except.ok inst)
    (hwin : parseWindow window = Except.ok delta)
    (hconn : env.db_connect = Except.ok ())
    (hrows : exceptOkB env.db_rows = true) :
    exceptOkB (aggregateSocial env symbol window) = true ∧
    (∀ r, aggregateSocial env symbol window = Except.ok r →
      r.get "sources" = some (sourcesPy
        (collectOne (env.collect_x inst (env.now - delta))).2
        (collectOne (env.collect_reddit inst (env.now - delta))).2
        (collectOne (env.collect_stocktwits inst (env.now - delta))).2
        (collectOne (env.collect_discord inst (env.now - delta))).2)) := by
  obtain ⟨rows, hrows2⟩ : ∃ rows, env.db_rows = Except.ok rows := by
    cases hdb : env.db_rows with
    | error e => rw [hdb] at hrows; exact absurd hrows (by simp [exceptOkB])
    | ok rows => exact ⟨rows, rfl⟩
  unfold aggregateSocial
  rw [hres, hwin, hconn, hrows2]
  dsimp only
  split
  · exact ⟨rfl, by intro r h; cases h; rfl⟩
  · split
    · exact ⟨rfl, by intro r h; cases h; rfl⟩
    · refine ⟨rfl, ?_⟩
      intro r h
      cases h
      exact setEntries_lookup_self _ "sources" _

/-- C8 witness for the amended theorem: with every collector failing the
call still succeeds and reports all four sources with count zero. -/
theorem c8_collector_isolation_witness :
    exceptOkB (aggregateSocial demoOrchEnvNoPosts "TSLA" "24h") = true ∧
    (∀ r, aggregateSocial demoOrchEnvNoPosts "TSLA" "24h" = Except.ok r →
      r.get "sources" = some (sourcesPy
        (collectOne (demoOrchEnvNoPosts.collect_x demoInstrument
          (demoOrchEnvNoPosts.now - 24))).2
        (collectOne (demoOrchEnvNoPosts.collect_reddit demoInstrument
          (demoOrchEnvNoPosts.now - 24))).2
        (collectOne (demoOrchEnvNoPosts.collect_stocktwits demoInstrument
          (demoOrchEnvNoPosts.now - 24))).2
        (collectOne (demoOrchEnvNoPosts.collect_discord demoInstrument
          (demoOrchEnvNoPosts.now - 24))).2)) :=
  c8_collector_isolation demoOrchEnvNoPosts "TSLA" "24h" demoInstrument 24
    rfl rfl rfl rfl

end Stonkzap
